import Mathlib

/-!
Verification development for the racket-stringing shop backend
(`backend/app/crud.py`, `backend/app/models.py`, `backend/app/main.py`).

The relational store is embedded shallowly: a `Store` carries the rows of
the three tables (`customers`, `orders`, `order_items`); each CRUD
function of `crud.py` becomes a pure Lean function from the store (plus
the values Python obtains from its environment: the current time
`datetime.utcnow()` and the random draws consumed by
`secrets.token_hex`) to a result together with the updated row list.
A `none` / `.error` result corresponds to the Python function returning
`None` or raising: the enclosing transaction rolls back and the store is
unchanged.
-/

set_option autoImplicit false

namespace Stringing

/-! ### Python string primitives used by `crud.py`

`str.strip`, `str.upper`, `str.lower` and `str.replace` are embedded as
structural functions on the character list of the string, so that every
definition below evaluates inside the kernel. -/

/-- Python `str.strip()`: drop whitespace from both ends. -/
def pyStrip (s : String) : String :=
  ⟨((s.data.dropWhile Char.isWhitespace).reverse.dropWhile Char.isWhitespace).reverse⟩

/-- Python `str.upper()` (ASCII case mapping, which covers every string
the claims exercise). -/
def pyUpper (s : String) : String :=
  ⟨s.data.map Char.toUpper⟩

/-- Characters of a string lower-cased, as SQL `lower()` does on both
sides of an `ILIKE`. -/
def lowerChars (s : String) : List Char :=
  s.data.map Char.toLower

/-- Fuel-driven worker for `pyReplaceDel`; the fuel starts at the length
of the string, which bounds the number of recursive steps. -/
def pyReplaceDelAux (pat : List Char) : Nat → List Char → List Char
  | _, [] => []
  | 0, s => s
  | fuel + 1, c :: rest =>
    if pat.isPrefixOf (c :: rest) && !pat.isEmpty then
      pyReplaceDelAux pat fuel (rest.drop (pat.length - 1))
    else
      c :: pyReplaceDelAux pat fuel rest

/-- Python `s.replace(pat, "")`: delete every (non-overlapping,
left-to-right) occurrence of `pat`.  `crud.py` only uses it with the
non-empty pattern `"ITEMSTATUS."`. -/
def pyReplaceDel (s : String) (pat : String) : String :=
  ⟨pyReplaceDelAux pat.data s.data.length s.data⟩

/-! ### Data model (`models.py`) -/

/-- `models.ItemStatus`: the four legal states of a stringing job. -/
inductive ItemStatus where
  | RECEIVED
  | WORKING
  | DONE
  | PICKED_UP
deriving DecidableEq, Repr

/-- A naive timestamp (`datetime`), to minute precision as the code
formats it. -/
structure DateTime where
  year : Nat
  month : Nat
  day : Nat
  hour : Nat
  minute : Nat
deriving DecidableEq, Repr

/-- A calendar date, the result of SQL `date(...)` on a timestamp. -/
structure Date where
  year : Nat
  month : Nat
  day : Nat
deriving DecidableEq, Repr

/-- `date(promised_done_time)`: the date component of a timestamp. -/
def DateTime.toDate (t : DateTime) : Date :=
  ⟨t.year, t.month, t.day⟩

/-- `models.Customer` row. -/
structure Customer where
  id : Nat
  name : String
  phone : String
deriving DecidableEq, Repr

/-- `models.Order` row (the `note` and `created_at` columns play no part
in any claim and are omitted). -/
structure Order where
  id : Nat
  customer_id : Nat
deriving DecidableEq, Repr

/-- `models.OrderItem` row. -/
structure OrderItem where
  id : Nat
  order_id : Nat
  token : String
  string_type : String
  tension_main : Int
  tension_cross : Int
  promised_done_time : DateTime
  status : ItemStatus
  completed_at : Option DateTime
deriving DecidableEq, Repr

/-- The three tables of the database. -/
structure Store where
  customers : List Customer
  orders : List Order
  items : List OrderItem
deriving DecidableEq, Repr

/-! ### Token generator (`crud._new_token`) -/

/-- One lowercase hexadecimal digit, as Python's `hex` produces. -/
def hexDigitChar (n : Nat) : Char :=
  if n < 10 then Char.ofNat (48 + n) else Char.ofNat (87 + n)

/-- Big-endian hexadecimal digits: `hexCharsAux k r` is the `k`-digit hex
rendering of `r` (mod `16^k`). -/
def hexCharsAux : Nat → Nat → List Char
  | 0, _ => []
  | k + 1, r => hexCharsAux k (r / 16) ++ [hexDigitChar (r % 16)]

/-- `crud._new_token`: `secrets.token_hex(3).upper()` — six uppercase hex
characters.  The three random bytes are supplied as the natural number
`r`. -/
def newToken (r : Nat) : String :=
  ⟨(hexCharsAux 6 r).map Char.toUpper⟩

/-! ### Status helpers (`crud._cycle_status`, `crud._parse_status`,
`crud._status_str`) -/

/-- `crud._cycle_status`: the staff scan-toggle successor function. -/
def cycleStatus : ItemStatus → ItemStatus
  | .RECEIVED => .WORKING
  | .WORKING => .DONE
  | .DONE => .WORKING
  | .PICKED_UP => .WORKING

/-- `models.ItemStatus[s]`: enum lookup by member name. -/
def statusOfName : String → Option ItemStatus
  | "RECEIVED" => some .RECEIVED
  | "WORKING" => some .WORKING
  | "DONE" => some .DONE
  | "PICKED_UP" => some .PICKED_UP
  | _ => none

/-- `crud._parse_status`: strip, upper-case, drop `"ITEMSTATUS."`
occurrences, then look the name up in the enum; `none` plays the raised
`ValueError`. -/
def parseStatus (status : String) : Option ItemStatus :=
  statusOfName (pyReplaceDel (pyUpper (pyStrip status)) "ITEMSTATUS.")

/-- `crud._status_str` on an enum member: its `.value`. -/
def statusStr : ItemStatus → String
  | .RECEIVED => "RECEIVED"
  | .WORKING => "WORKING"
  | .DONE => "DONE"
  | .PICKED_UP => "PICKED_UP"

/-! ### Staff toggle (`crud.staff_toggle_status_by_token`) -/

/-- Row lookup `query(OrderItem).filter(OrderItem.token == tok).first()`. -/
def findByToken (items : List OrderItem) (tok : String) : Option OrderItem :=
  items.find? (fun it => it.token == tok)

/-- Row lookup `query(OrderItem).filter(OrderItem.id == item_id).first()`. -/
def findById (items : List OrderItem) (item_id : Nat) : Option OrderItem :=
  items.find? (fun it => it.id == item_id)

/-- Write the mutated row back into its table (the ORM mutates `obj` in
place; `id` is the primary key). -/
def saveItem (items : List OrderItem) (obj : OrderItem) : List OrderItem :=
  items.map (fun it => if it.id == obj.id then obj else it)

/-- `crud.staff_toggle_status_by_token`: advance the status one step of
the cycle and set `completed_at` when entering `DONE` with it unset.
Returns the refreshed row together with the committed table, or `none`
when the token is unknown. -/
def staffToggleStatusByToken (items : List OrderItem) (token : String)
    (now : DateTime) : Option (OrderItem × List OrderItem) :=
  let tok := pyStrip token
  match findByToken items tok with
  | none => none
  | some obj =>
    let st := cycleStatus obj.status
    let completed :=
      if st = .DONE ∧ obj.completed_at = none then some now else obj.completed_at
    let obj' := { obj with status := st, completed_at := completed }
    some (obj', saveItem items obj')

/-- The table as the staff-toggle request leaves it (unchanged when the
operation failed and the transaction rolled back). -/
def staffToggleRun (items : List OrderItem) (token : String)
    (now : DateTime) : List OrderItem :=
  match staffToggleStatusByToken items token now with
  | none => items
  | some (_, items') => items'

/-- A sequence of staff scans, each identified by the scanned token and
the wall-clock time of the scan. -/
def staffToggleSeq (items : List OrderItem)
    (ops : List (String × DateTime)) : List OrderItem :=
  ops.foldl (fun acc op => staffToggleRun acc op.1 op.2) items

/-! ### Admin status update (`crud.update_item_status`,
`main.change_status`) -/

/-- `crud.update_item_status`: look the row up by id, parse the supplied
status string, set the status, then apply the `completed_at` policy (set
on entering `DONE` when unset, clear whenever the new status is not
`DONE`).  `none` for both an unknown id and an unparseable status. -/
def updateItemStatus (items : List OrderItem) (item_id : Nat)
    (status : String) (now : DateTime) : Option (OrderItem × List OrderItem) :=
  match findById items item_id with
  | none => none
  | some obj =>
    match parseStatus status with
    | none => none
    | some st =>
      let c1 := if st = .DONE ∧ obj.completed_at = none then some now else obj.completed_at
      let c2 := if st ≠ .DONE ∧ c1 ≠ none then none else c1
      let obj' := { obj with status := st, completed_at := c2 }
      some (obj', saveItem items obj')

/-- The table as the admin status request leaves it. -/
def updateItemStatusRun (items : List OrderItem) (item_id : Nat)
    (status : String) (now : DateTime) : List OrderItem :=
  match updateItemStatus items item_id status now with
  | none => items
  | some (_, items') => items'

/-- `main.change_status` (and `main.api_admin_set_status`): the HTTP
wrapper turns a `None` from `crud.update_item_status` into a bare 404
response, whatever its cause. -/
def changeStatus (items : List OrderItem) (item_id : Nat)
    (status : String) (now : DateTime) : Except Nat OrderItem :=
  match updateItemStatus items item_id status now with
  | none => .error 404
  | some (obj, _) => .ok obj

/-! ### Order creation (`crud.create_order`) -/

/-- `schemas.OrderCreate`. -/
structure OrderCreate where
  customer_id : Nat
  string_type : String
  tension_main : Int
  tension_cross : Int
deriving DecidableEq, Repr

/-- The collision pre-check of `create_order`: no existing row holds the
candidate token. -/
def tokenFree (items : List OrderItem) (tok : String) : Bool :=
  (findByToken items tok).isNone

/-- The retry loop of `create_order`: Python checks the candidates drawn
at indices `i, i+1, …` for `fuel` loop iterations (`for _ in range(10)`)
and falls through to `raise` when every checked candidate collides.  The
eleventh candidate Python generates in the final iteration is never
checked or used. -/
def pickTokenAux (items : List OrderItem) (rng : Nat → Nat) :
    Nat → Nat → Option String
  | _, 0 => none
  | i, fuel + 1 =>
    let tok := newToken (rng i)
    if tokenFree items tok then some tok else pickTokenAux items rng (i + 1) fuel

/-- Token generation with uniqueness retry, bound 10, as in
`crud.create_order` (and identically in `crud.admin_create_one`). -/
def pickToken (items : List OrderItem) (rng : Nat → Nat) : Option String :=
  pickTokenAux items rng 0 10

/-- `crud.create_order`: create the Order row, draw a unique token,
create the Item row with `status=RECEIVED`, `completed_at=None` and
`promised_done_time=utcnow()`, and commit both; exhausting the retry
loop raises (`.error`) and the transaction rolls back.  `orderId` and
`itemId` stand for the primary keys the database assigns at flush
time. -/
def createOrder (s : Store) (order : OrderCreate) (rng : Nat → Nat)
    (now : DateTime) (orderId itemId : Nat) :
    Except String (OrderItem × Store) :=
  let od : Order := ⟨orderId, order.customer_id⟩
  match pickToken s.items rng with
  | none => .error "failed to generate unique token"
  | some token =>
    let item : OrderItem :=
      ⟨itemId, orderId, token, pyStrip order.string_type,
        order.tension_main, order.tension_cross, now, .RECEIVED, none⟩
    .ok (item, { s with orders := s.orders ++ [od], items := s.items ++ [item] })

/-- The store as the create-order request leaves it (unchanged when the
operation raised and rolled back). -/
def createOrderRun (s : Store) (order : OrderCreate) (rng : Nat → Nat)
    (now : DateTime) (orderId itemId : Nat) : Store :=
  match createOrder s order rng now orderId itemId with
  | .error _ => s
  | .ok (_, s') => s'

/-- The alphabet of issued tokens: `token_hex` output upper-cased. -/
def hexUpperAlphabet : List Char := "0123456789ABCDEF".data

/-! ### Aggregation layer (`crud._to_admin_item`,
`crud.admin_list_items_by_date`, `crud.admin_search`,
`crud.admin_summary_by_date`) -/

/-- Zero-padded decimal rendering, as the two-digit `strftime` fields
and the Python format `{:02d}` produce. -/
def padNum (w n : Nat) : String :=
  let s := Nat.repr n
  ⟨List.replicate (w - s.length) '0' ++ s.data⟩

/-- `strftime("%Y-%m-%d %H:%M")`. -/
def fmtDateTime (t : DateTime) : String :=
  padNum 4 t.year ++ "-" ++ padNum 2 t.month ++ "-" ++ padNum 2 t.day ++
    " " ++ padNum 2 t.hour ++ ":" ++ padNum 2 t.minute

/-- The denormalized row `crud._to_admin_item` returns. -/
structure AdminItem where
  id : Nat
  token : String
  status : String
  string_type : String
  tension_main : Int
  tension_cross : Int
  promised_done_time : Option String
  customer_name : Option String
  customer_phone : Option String
deriving DecidableEq, Repr

/-- The relationship walk `obj.order.customer` of the ORM. -/
def lookupCustomer (s : Store) (it : OrderItem) : Option Customer :=
  match s.orders.find? (fun o => o.id == it.order_id) with
  | none => none
  | some o => s.customers.find? (fun c => c.id == o.customer_id)

/-- `crud._to_admin_item`: project one Item row (with its customer, when
the relationship resolves) into the dashboard shape. -/
def toAdminItem (s : Store) (it : OrderItem) : AdminItem :=
  { id := it.id
  , token := it.token
  , status := statusStr it.status
  , string_type := it.string_type
  , tension_main := it.tension_main
  , tension_cross := it.tension_cross
  , promised_done_time := some (fmtDateTime it.promised_done_time)
  , customer_name := (lookupCustomer s it).map Customer.name
  , customer_phone := (lookupCustomer s it).map Customer.phone }

/-- Insertion step of `ORDER BY key DESC`. -/
def insertDesc {α : Type} (key : α → Nat) (x : α) : List α → List α
  | [] => [x]
  | y :: ys => if key y ≤ key x then x :: y :: ys else y :: insertDesc key x ys

/-- SQL `ORDER BY key DESC` as a stable insertion sort. -/
def sortDesc {α : Type} (key : α → Nat) : List α → List α
  | [] => []
  | x :: xs => insertDesc key x (sortDesc key xs)

/-- The day filter `func.date(OrderItem.promised_done_time) == day`
shared by the listing and all three summary queries. -/
def dayItems (s : Store) (day : Date) : List OrderItem :=
  s.items.filter (fun it => it.promised_done_time.toDate == day)

/-- `crud.admin_list_items_by_date`: the Items promised on the given
day, ordered by id descending, projected for the dashboard. -/
def adminListItemsByDate (s : Store) (day : Date) : List AdminItem :=
  (sortDesc (fun it => it.id) (dayItems s day)).map (toAdminItem s)

/-- One `GROUP BY status` bucket: the rows of the base query in the
given status. -/
def statusCount (l : List OrderItem) (st : ItemStatus) : Nat :=
  (l.filter (fun it => it.status == st)).length

/-- One `GROUP BY strftime("%H", …)` bucket. -/
def hourCount (l : List OrderItem) (h : Nat) : Nat :=
  (l.filter (fun it => it.promised_done_time.hour == h)).length

/-- Enum order of the four states (a SQL `GROUP BY` emits one row per
value present; the row order is unspecified, fixed here as enum
order). -/
def allStatuses : List ItemStatus := [.RECEIVED, .WORKING, .DONE, .PICKED_UP]

/-- The payload of `crud.admin_summary_by_date`. -/
structure Summary where
  total : Nat
  by_status : List (String × Nat)
  by_hour : List (String × Nat)
deriving DecidableEq, Repr

/-- `crud.admin_summary_by_date`: total count, sparse per-status counts
and sparse per-hour counts of the Items promised on the given day. -/
def adminSummaryByDate (s : Store) (day : Date) : Summary :=
  { total := (dayItems s day).length
  , by_status := allStatuses.filterMap (fun st =>
      if statusCount (dayItems s day) st = 0 then none
      else some (statusStr st, statusCount (dayItems s day) st))
  , by_hour := (List.range 24).filterMap (fun h =>
      if hourCount (dayItems s day) h = 0 then none
      else some (padNum 2 h, hourCount (dayItems s day) h)) }

/-! ### Keyword search (`crud.admin_search`) -/

/-- The suffix scan behind the `%` wildcard of SQL `LIKE`. -/
def anySuffix (f : List Char → Bool) : List Char → Bool
  | [] => f []
  | s@(_ :: rest) => f s || anySuffix f rest

/-- SQL `LIKE` pattern matching: `%` matches any run of characters, `_`
any single character, every other pattern character itself. -/
def likeMatch : List Char → List Char → Bool
  | [], s => s.isEmpty
  | p :: ps, s =>
    if p = '%' then anySuffix (likeMatch ps) s
    else
      match s with
      | [] => false
      | c :: s2 => (p == '_' || p == c) && likeMatch ps s2

/-- SQLAlchemy `column.ilike(pattern)`: case-insensitive `LIKE` (both
sides lower-cased). -/
def ilike (v pat : String) : Bool :=
  likeMatch (lowerChars pat) (lowerChars v)

/-- The inner joins `OrderItem ⋈ Order ⋈ Customer` of `admin_search`. -/
def joinRows (s : Store) : List (OrderItem × Customer) :=
  s.items.filterMap (fun it =>
    match s.orders.find? (fun o => o.id == it.order_id) with
    | none => none
    | some o =>
      match s.customers.find? (fun c => c.id == o.customer_id) with
      | none => none
      | some c => some (it, c))

/-- `crud.admin_search`: a blank keyword short-circuits to `[]`;
otherwise token, customer name and customer phone are matched with
`ILIKE "%kw%"`, ordered by id descending and capped at 200 rows. -/
def adminSearch (s : Store) (q : String) : List AdminItem :=
  let kw := pyStrip q
  if kw = "" then []
  else
    ((sortDesc (fun r => r.1.id)
      ((joinRows s).filter (fun r =>
        ilike r.1.token ("%" ++ kw ++ "%") ||
        ilike r.2.name ("%" ++ kw ++ "%") ||
        ilike r.2.phone ("%" ++ kw ++ "%")))).take 200).map
      (fun r => toAdminItem s r.1)

/-- Substring containment on character lists: some suffix of the
haystack starts with the needle. -/
def containsChars (needle : List Char) : List Char → Bool
  | [] => needle.isPrefixOf []
  | hay@(_ :: rest) => needle.isPrefixOf hay || containsChars needle rest

/-- Case-insensitive substring test — the match the spec promises for
`search`. -/
def containsCI (hay needle : String) : Bool :=
  containsChars (lowerChars needle) (lowerChars hay)

/-- The search contract in the words of the spec (§4.4): blank keyword
yields `[]`; otherwise exactly the rows whose token, customer name or
customer phone contains the keyword as a case-insensitive substring,
ordered by id descending, capped at 200. -/
def searchSpec (s : Store) (q : String) : List AdminItem :=
  let kw := pyStrip q
  if kw = "" then []
  else
    ((sortDesc (fun r => r.1.id)
      ((joinRows s).filter (fun r =>
        containsCI r.1.token kw ||
        containsCI r.2.name kw ||
        containsCI r.2.phone kw))).take 200).map
      (fun r => toAdminItem s r.1)

/-! ### Month rollup (claim C9) -/

/-- Gregorian leap year test. -/
def isLeapYear (y : Nat) : Bool :=
  (y % 4 == 0 && y % 100 != 0) || y % 400 == 0

/-- Number of days of a calendar month. -/
def daysInMonth (y m : Nat) : Nat :=
  if m == 2 then (if isLeapYear y then 29 else 28)
  else if m == 4 || m == 6 || m == 9 || m == 11 then 30
  else 31

/-- ISO `YYYY-MM-DD` rendering of a date. -/
def isoDate (y m d : Nat) : String :=
  padNum 4 y ++ "-" ++ padNum 2 m ++ "-" ++ padNum 2 d

/-- Modelled from the spec: the Items whose `promised_done_time` falls
on the given day and whose status is neither `DONE` nor `PICKED_UP`
(the unfinished ones), counted. -/
def countUnfinishedOn (s : Store) (y m d : Nat) : Nat :=
  (s.items.filter (fun it =>
    !(it.status == ItemStatus.DONE) && !(it.status == ItemStatus.PICKED_UP) &&
    it.promised_done_time.toDate == Date.mk y m d)).length

/-- Modelled from the spec: the repository snapshot holds no
`month_unfinished_counts` implementation, so the operation follows §4.4
of the spec: for every day of the given calendar month, the count of
Items promised that day whose status is not in `{DONE, PICKED_UP}`; only
days with a nonzero count appear, keyed by ISO date string. -/
def monthUnfinishedCounts (s : Store) (y m : Nat) : List (String × Nat) :=
  (List.range (daysInMonth y m)).filterMap (fun i =>
    if countUnfinishedOn s y m (i + 1) = 0 then none
    else some (isoDate y m (i + 1), countUnfinishedOn s y m (i + 1)))

/-! ### Concrete stores used by counterexamples and witnesses -/

def c1Item : OrderItem :=
  ⟨1, 1, "AAAAAA", "poly", 25, 24, ⟨2024, 3, 5, 10, 0⟩, .DONE,
    some ⟨2024, 3, 4, 9, 0⟩⟩

def c3Item : OrderItem :=
  ⟨1, 1, "AB12CD", "nylon", 26, 24, ⟨2024, 3, 5, 10, 0⟩, .RECEIVED, none⟩

def c5Order : OrderCreate := ⟨1, "nylon", 26, 24⟩

def c5Item : OrderItem :=
  ⟨1, 1, "000000", "nylon", 26, 24, ⟨2024, 3, 5, 10, 0⟩, .RECEIVED, none⟩

def c6Store : Store :=
  ⟨[], [], [⟨1, 1, "000000", "poly", 24, 22, ⟨2024, 3, 5, 10, 0⟩, .RECEIVED, none⟩]⟩

def c7Store : Store :=
  ⟨[⟨1, "Bob", "0911222333"⟩], [⟨1, 1⟩],
    [⟨1, 1, "ABCDEF", "nylon", 26, 24, ⟨2024, 3, 5, 10, 0⟩, .RECEIVED, none⟩]⟩

def c9Store : Store :=
  ⟨[], [],
    [⟨1, 1, "AAAA01", "poly", 24, 22, ⟨2024, 3, 5, 10, 0⟩, .RECEIVED, none⟩,
     ⟨2, 1, "AAAA02", "poly", 24, 22, ⟨2024, 3, 5, 11, 0⟩, .DONE,
       some ⟨2024, 3, 5, 12, 0⟩⟩]⟩

/-! ### Lemmas about the state-machine operations -/

theorem cycleStatus_ne_picked_up (st : ItemStatus) :
    cycleStatus st ≠ .PICKED_UP := by
  cases st <;> simp [cycleStatus]

/-- A found row satisfies the token predicate of the lookup. -/
theorem findByToken_token_matches (items : List OrderItem) (tok : String)
    (obj : OrderItem) (h : findByToken items tok = some obj) :
    (obj.token == tok) = true := by
  induction items with
  | nil => simp [findByToken] at h
  | cons x xs ih =>
    simp only [findByToken, List.find?] at h
    cases hx : (x.token == tok) with
    | true =>
      rw [hx] at h
      injection h with h
      subst h
      exact hx
    | false =>
      rw [hx] at h
      exact ih h

/-- Writing back a row that keeps its id and token lets the next token
lookup retrieve exactly the written row. -/
theorem findByToken_saveItem (items : List OrderItem) (tok : String)
    (obj obj' : OrderItem) (h : findByToken items tok = some obj)
    (hid : obj'.id = obj.id) (htok : obj'.token = obj.token) :
    findByToken (saveItem items obj') tok = some obj' := by
  have hp : (obj'.token == tok) = true := by
    rw [htok]
    exact findByToken_token_matches items tok obj h
  induction items with
  | nil => simp [findByToken] at h
  | cons x xs ih =>
    simp only [findByToken, List.find?] at h
    simp only [findByToken, saveItem, List.map_cons]
    by_cases hx : (x.token == tok) = true
    · rw [hx] at h
      injection h with h
      subst h
      have hidx : (x.id == obj'.id) = true := by simp [hid]
      rw [if_pos hidx]
      simp only [List.find?]
      rw [hp]
    · rw [Bool.not_eq_true] at hx
      rw [hx] at h
      by_cases hidx : (x.id == obj'.id) = true
      · rw [if_pos hidx]
        simp only [List.find?]
        rw [hp]
      · rw [if_neg hidx]
        simp only [List.find?]
        rw [hx]
        have := ih h
        simpa [findByToken, saveItem] using this

/-- One staff scan never writes the `PICKED_UP` state: any row of the
resulting table that is `PICKED_UP` was already present before. -/
theorem mem_staffToggleRun_picked_up (items : List OrderItem)
    (tok : String) (now : DateTime) (it : OrderItem)
    (hmem : it ∈ staffToggleRun items tok now)
    (hst : it.status = .PICKED_UP) : it ∈ items := by
  unfold staffToggleRun at hmem
  cases h : staffToggleStatusByToken items tok now with
  | none => rw [h] at hmem; exact hmem
  | some r =>
    obtain ⟨o, items'⟩ := r
    rw [h] at hmem
    simp only at hmem
    cases hfind : findByToken items (pyStrip tok) with
    | none => simp [staffToggleStatusByToken, hfind] at h
    | some obj =>
      simp only [staffToggleStatusByToken, hfind, Option.some.injEq,
        Prod.mk.injEq] at h
      obtain ⟨-, hitems⟩ := h
      rw [← hitems] at hmem
      simp only [saveItem, List.mem_map] at hmem
      obtain ⟨x, hx, hxeq⟩ := hmem
      by_cases hid : (x.id == obj.id) = true
      · rw [if_pos hid] at hxeq
        exfalso
        apply cycleStatus_ne_picked_up obj.status
        rw [← hxeq] at hst
        exact hst
      · rw [Bool.not_eq_true] at hid
        rw [hid] at hxeq
        simp at hxeq
        rw [← hxeq]
        exact hx

/-- No sequence of staff scans writes the `PICKED_UP` state. -/
theorem mem_staffToggleSeq_picked_up (ops : List (String × DateTime))
    (items : List OrderItem) (it : OrderItem)
    (hmem : it ∈ staffToggleSeq items ops)
    (hst : it.status = .PICKED_UP) : it ∈ items := by
  induction ops generalizing items with
  | nil => exact hmem
  | cons op ops ih =>
    exact mem_staffToggleRun_picked_up items op.1 op.2 it
      (ih (staffToggleRun items op.1 op.2) hmem) hst

/-! ### Claim theorems: status state machine -/

/-- Claim C1 (code bug): the post-fix invariant `status = DONE ↔
completed_at ≠ none` is broken by `staff_toggle_status_by_token`.  On an
Item in `DONE` with `completed_at` set, the staff toggle moves the
status to `WORKING` but never clears `completed_at`, so the resulting
row has `status ≠ DONE` and `completed_at ≠ none` — exactly the defect
the spec flags (`update_item_status` does clear it; the staff path does
not). -/
theorem staff_toggle_leaves_stale_completed_at :
    staffToggleStatusByToken [c1Item] "AAAAAA" ⟨2024, 3, 6, 8, 0⟩ =
      some ({ c1Item with status := .WORKING },
            [{ c1Item with status := .WORKING }]) ∧
    ({ c1Item with status := ItemStatus.WORKING }).status ≠ .DONE ∧
    ({ c1Item with status := ItemStatus.WORKING }).completed_at ≠ none := by
  decide

/-- Claim C2: a staff scan on a `RECEIVED` Item moves it to `WORKING`
with `completed_at` still `none`; a second scan on the now-`WORKING`
Item moves it to `DONE` and stamps `completed_at` with the scan time. -/
theorem staff_advance_received_working_done (items : List OrderItem)
    (tok : String) (t1 t2 : DateTime) (obj : OrderItem)
    (hfind : findByToken items (pyStrip tok) = some obj)
    (hst : obj.status = .RECEIVED) (hc : obj.completed_at = none) :
    ∃ o1 items1 o2 items2,
      staffToggleStatusByToken items tok t1 = some (o1, items1) ∧
      o1.status = .WORKING ∧ o1.completed_at = none ∧
      staffToggleStatusByToken items1 tok t2 = some (o2, items2) ∧
      o2.status = .DONE ∧ o2.completed_at = some t2 := by
  have h1 : staffToggleStatusByToken items tok t1 =
      some ({ obj with status := .WORKING, completed_at := none },
        saveItem items { obj with status := .WORKING, completed_at := none }) := by
    simp [staffToggleStatusByToken, hfind, hst, cycleStatus, hc]
  have hfind2 : findByToken
      (saveItem items { obj with status := .WORKING, completed_at := none })
      (pyStrip tok) = some { obj with status := .WORKING, completed_at := none } :=
    findByToken_saveItem items (pyStrip tok) obj _ hfind rfl rfl
  have h2 : staffToggleStatusByToken
      (saveItem items { obj with status := .WORKING, completed_at := none }) tok t2 =
      some ({ obj with status := .DONE, completed_at := some t2 },
        saveItem (saveItem items { obj with status := .WORKING, completed_at := none })
          { obj with status := .DONE, completed_at := some t2 }) := by
    simp [staffToggleStatusByToken, hfind2, cycleStatus]
  exact ⟨{ obj with status := .WORKING, completed_at := none }, _,
    { obj with status := .DONE, completed_at := some t2 }, _,
    h1, rfl, rfl, h2, rfl, rfl⟩

/-- Claim C2 witness. -/
theorem staff_advance_received_working_done_witness :
    ∃ o1 items1 o2 items2,
      staffToggleStatusByToken
        [⟨1, 1, "AB12CD", "nylon", 26, 24, ⟨2024, 3, 5, 10, 0⟩, .RECEIVED, none⟩]
        "AB12CD" ⟨2024, 3, 5, 11, 0⟩ = some (o1, items1) ∧
      o1.status = .WORKING ∧ o1.completed_at = none ∧
      staffToggleStatusByToken items1 "AB12CD" ⟨2024, 3, 5, 12, 0⟩ =
        some (o2, items2) ∧
      o2.status = .DONE ∧ o2.completed_at = some ⟨2024, 3, 5, 12, 0⟩ :=
  staff_advance_received_working_done _ _ _ _
    ⟨1, 1, "AB12CD", "nylon", 26, 24, ⟨2024, 3, 5, 10, 0⟩, .RECEIVED, none⟩
    (by decide) (by decide) (by decide)

/-- Claim C3 counterexample: with the store holding only the Item of id
1, asking for a missing id (99) with a valid status and asking for the
existing id 1 with the unrecognized status string "INVALID" produce
identical results — `none` from `update_item_status` and a bare 404
from the `change_status` endpoint — so the caller cannot tell the two
failure cases apart. -/
theorem status_failure_results_coincide :
    updateItemStatus [c3Item] 99 "DONE" ⟨2024, 3, 6, 8, 0⟩ =
      updateItemStatus [c3Item] 1 "INVALID" ⟨2024, 3, 6, 8, 0⟩ ∧
    updateItemStatus [c3Item] 99 "DONE" ⟨2024, 3, 6, 8, 0⟩ = none ∧
    changeStatus [c3Item] 99 "DONE" ⟨2024, 3, 6, 8, 0⟩ = .error 404 ∧
    changeStatus [c3Item] 1 "INVALID" ⟨2024, 3, 6, 8, 0⟩ = .error 404 ∧
    findById [c3Item] 1 = some c3Item ∧
    findById [c3Item] 99 = none ∧
    parseStatus "DONE" = some .DONE ∧
    parseStatus "INVALID" = none :=
  ⟨rfl, rfl, rfl, rfl, rfl, rfl, rfl, rfl⟩

/-- Claim C3 (amended): a missing Item id and an unrecognized status
string both make `update_item_status` return `None`, which
`change_status` surfaces as the same bare 404 — the two failure cases
are not distinguishable by the caller. -/
theorem status_failures_collapse_to_none (items : List OrderItem)
    (item_id : Nat) (status : String) (now : DateTime)
    (h : findById items item_id = none ∨ parseStatus status = none) :
    updateItemStatus items item_id status now = none ∧
    changeStatus items item_id status now = .error 404 := by
  cases h with
  | inl hf => simp [updateItemStatus, changeStatus, hf]
  | inr hp =>
    cases hf : findById items item_id with
    | none => simp [updateItemStatus, changeStatus, hf]
    | some obj => simp [updateItemStatus, changeStatus, hf, hp]

/-- Claim C3 witness. -/
theorem status_failures_collapse_to_none_witness :
    updateItemStatus [c3Item] 99 "WORKING" ⟨2024, 3, 6, 8, 0⟩ = none ∧
    changeStatus [c3Item] 99 "WORKING" ⟨2024, 3, 6, 8, 0⟩ = .error 404 :=
  status_failures_collapse_to_none [c3Item] 99 "WORKING" ⟨2024, 3, 6, 8, 0⟩
    (Or.inl (by decide))

/-- Claim C4: for an existing Item and a status string the parser does
not recognize, `update_item_status` fails (returns `none`, an
`InvalidStatus`-style result) and the table is left untouched, so the
Item keeps its previous status and `completed_at`. -/
theorem invalid_status_leaves_item_unmodified (items : List OrderItem)
    (item_id : Nat) (status : String) (now : DateTime) (obj : OrderItem)
    (hfind : findById items item_id = some obj)
    (hparse : parseStatus status = none) :
    updateItemStatus items item_id status now = none ∧
    updateItemStatusRun items item_id status now = items ∧
    findById (updateItemStatusRun items item_id status now) item_id = some obj := by
  have h : updateItemStatus items item_id status now = none := by
    simp [updateItemStatus, hfind, hparse]
  refine ⟨h, ?_, ?_⟩
  · simp [updateItemStatusRun, h]
  · simp [updateItemStatusRun, h, hfind]

/-- Claim C4 witness. -/
theorem invalid_status_leaves_item_unmodified_witness :
    updateItemStatus [c3Item] 1 "NO_SUCH" ⟨2024, 3, 6, 8, 0⟩ = none ∧
    updateItemStatusRun [c3Item] 1 "NO_SUCH" ⟨2024, 3, 6, 8, 0⟩ = [c3Item] ∧
    findById (updateItemStatusRun [c3Item] 1 "NO_SUCH" ⟨2024, 3, 6, 8, 0⟩) 1 =
      some c3Item :=
  invalid_status_leaves_item_unmodified [c3Item] 1 "NO_SUCH"
    ⟨2024, 3, 6, 8, 0⟩ c3Item (by decide) (by decide)

/-- Claim C10: a staff scan on a `PICKED_UP` Item moves it to `WORKING`
(neither keeps it unchanged nor sends it to `RECEIVED`), and no
sequence of staff scans ever writes `PICKED_UP`: any `PICKED_UP` row
after a sequence of scans was already in the table before. -/
theorem staff_toggle_never_produces_picked_up :
    (∀ (items : List OrderItem) (tok : String) (now : DateTime)
        (obj : OrderItem), findByToken items (pyStrip tok) = some obj →
        obj.status = .PICKED_UP →
        ∃ o items1, staffToggleStatusByToken items tok now = some (o, items1) ∧
          o.status = .WORKING) ∧
    (∀ (ops : List (String × DateTime)) (items : List OrderItem)
        (it : OrderItem), it ∈ staffToggleSeq items ops →
        it.status = .PICKED_UP → it ∈ items) := by
  constructor
  · intro items tok now obj hfind hst
    refine ⟨{ obj with status := .WORKING }, saveItem items { obj with status := .WORKING }, ?_, rfl⟩
    simp [staffToggleStatusByToken, hfind, hst, cycleStatus]
  · intro ops items it hmem hst
    exact mem_staffToggleSeq_picked_up ops items it hmem hst

/-- Claim C10 witness. -/
theorem staff_toggle_never_produces_picked_up_witness :
    (∃ o items1,
      staffToggleStatusByToken
        [⟨1, 1, "FFEE00", "poly", 24, 22, ⟨2024, 3, 5, 10, 0⟩, .PICKED_UP, none⟩]
        "FFEE00" ⟨2024, 3, 5, 11, 0⟩ = some (o, items1) ∧
      o.status = .WORKING) ∧
    (⟨1, 1, "FFEE00", "poly", 24, 22, ⟨2024, 3, 5, 10, 0⟩, .PICKED_UP, none⟩ ∈
        staffToggleSeq
          [⟨1, 1, "FFEE00", "poly", 24, 22, ⟨2024, 3, 5, 10, 0⟩, .PICKED_UP, none⟩]
          [("ZZ", ⟨2024, 3, 5, 11, 0⟩)] →
      (⟨1, 1, "FFEE00", "poly", 24, 22, ⟨2024, 3, 5, 10, 0⟩, .PICKED_UP, none⟩ : OrderItem) ∈
        [⟨1, 1, "FFEE00", "poly", 24, 22, ⟨2024, 3, 5, 10, 0⟩, .PICKED_UP, none⟩]) :=
  ⟨staff_toggle_never_produces_picked_up.1 _ "FFEE00" ⟨2024, 3, 5, 11, 0⟩
      ⟨1, 1, "FFEE00", "poly", 24, 22, ⟨2024, 3, 5, 10, 0⟩, .PICKED_UP, none⟩
      (by decide) (by decide),
    fun hmem => staff_toggle_never_produces_picked_up.2
      [("ZZ", ⟨2024, 3, 5, 11, 0⟩)] _ _ hmem (by decide)⟩

/-! ### Lemmas about the token generator -/

theorem length_hexCharsAux (k r : Nat) : (hexCharsAux k r).length = k := by
  induction k generalizing r with
  | zero => rfl
  | succ k ih => simp [hexCharsAux, ih]

theorem mem_hexCharsAux (k r : Nat) (c : Char) (h : c ∈ hexCharsAux k r) :
    ∃ d, d < 16 ∧ c = hexDigitChar d := by
  induction k generalizing r with
  | zero => simp [hexCharsAux] at h
  | succ k ih =>
    simp only [hexCharsAux, List.mem_append, List.mem_singleton] at h
    cases h with
    | inl h => exact ih (r / 16) h
    | inr h => exact ⟨r % 16, Nat.mod_lt r (by omega), h⟩

theorem hexDigitChar_upper_mem (d : Nat) (h : d < 16) :
    Char.toUpper (hexDigitChar d) ∈ hexUpperAlphabet := by
  revert d
  decide

theorem newToken_length (r : Nat) : (newToken r).length = 6 := by
  show ((hexCharsAux 6 r).map Char.toUpper).length = 6
  simp [length_hexCharsAux]

theorem newToken_ne_empty (r : Nat) : newToken r ≠ "" := by
  intro h
  have := newToken_length r
  rw [h] at this
  simp [String.length] at this

theorem newToken_alphabet (r : Nat) (c : Char) (h : c ∈ (newToken r).data) :
    c ∈ hexUpperAlphabet := by
  have h' : c ∈ (hexCharsAux 6 r).map Char.toUpper := h
  simp only [List.mem_map] at h'
  obtain ⟨x, hx, hxc⟩ := h'
  obtain ⟨d, hd, hdx⟩ := mem_hexCharsAux 6 r x hx
  rw [← hxc, hdx]
  exact hexDigitChar_upper_mem d hd

/-- A token produced by the retry loop passed the collision check and is
one of the drawn candidates. -/
theorem pickTokenAux_some (items : List OrderItem) (rng : Nat → Nat)
    (i fuel : Nat) (tok : String)
    (h : pickTokenAux items rng i fuel = some tok) :
    tokenFree items tok = true ∧ ∃ j, tok = newToken (rng j) := by
  induction fuel generalizing i with
  | zero => simp [pickTokenAux] at h
  | succ fuel ih =>
    simp only [pickTokenAux] at h
    by_cases hfree : tokenFree items (newToken (rng i)) = true
    · rw [if_pos hfree] at h
      injection h with h
      subst h
      exact ⟨hfree, i, rfl⟩
    · rw [if_neg hfree] at h
      exact ih (i + 1) h

/-- When every checked candidate collides, the retry loop falls through
to the `raise`. -/
theorem pickTokenAux_none (items : List OrderItem) (rng : Nat → Nat)
    (i fuel : Nat)
    (h : ∀ j, i ≤ j → j < i + fuel → tokenFree items (newToken (rng j)) = false) :
    pickTokenAux items rng i fuel = none := by
  induction fuel generalizing i with
  | zero => rfl
  | succ fuel ih =>
    have h0 : tokenFree items (newToken (rng i)) = false :=
      h i (Nat.le_refl i) (by omega)
    simp only [pickTokenAux]
    rw [if_neg (by simp [h0])]
    exact ih (i + 1) (fun j h1 h2 => h j (by omega) (by omega))

/-! ### Claim theorems: order creation -/

/-- Claim C5 (amended): every successful `create_order` returns an Item
with status `RECEIVED` and `completed_at` `None`, whose token is
non-empty, six characters long (not eight), drawn from the uppercase
hexadecimal alphabet, and unique against every token already in the
store. -/
theorem create_order_returns_fresh_received_item (s : Store)
    (order : OrderCreate) (rng : Nat → Nat) (now : DateTime)
    (orderId itemId : Nat) (item : OrderItem) (s' : Store)
    (h : createOrder s order rng now orderId itemId = .ok (item, s')) :
    item.status = .RECEIVED ∧ item.completed_at = none ∧
    item.token ≠ "" ∧ item.token.length = 6 ∧
    (∀ c ∈ item.token.data, c ∈ hexUpperAlphabet) ∧
    tokenFree s.items item.token = true := by
  unfold createOrder at h
  cases hpick : pickToken s.items rng with
  | none => rw [hpick] at h; exact absurd h (by simp)
  | some tok =>
    rw [hpick] at h
    simp only [Except.ok.injEq, Prod.mk.injEq] at h
    obtain ⟨hitem, -⟩ := h
    obtain ⟨hfree, j, hj⟩ := pickTokenAux_some s.items rng 0 10 tok hpick
    subst hitem
    subst hj
    exact ⟨rfl, rfl, newToken_ne_empty (rng j), newToken_length (rng j),
      fun c hc => newToken_alphabet (rng j) c hc, hfree⟩

/-- Claim C5 counterexample: on an empty store, with the random source
drawing zero bytes, `create_order` succeeds and issues the token
`"000000"` — six characters, not the eight characters the claim states
(the code comment itself says `6 hex chars, upper`). -/
theorem create_order_token_is_six_chars_not_eight :
    createOrder ⟨[], [], []⟩ c5Order (fun _ => 0) ⟨2024, 3, 5, 10, 0⟩ 1 1 =
      .ok (c5Item, ⟨[], [⟨1, 1⟩], [c5Item]⟩) ∧
    c5Item.token.length = 6 ∧ c5Item.token.length ≠ 8 :=
  ⟨rfl, rfl, by decide⟩

/-- Claim C5 witness. -/
theorem create_order_returns_fresh_received_item_witness :
    c5Item.status = .RECEIVED ∧ c5Item.completed_at = none ∧
    c5Item.token ≠ "" ∧ c5Item.token.length = 6 ∧
    (∀ c ∈ c5Item.token.data, c ∈ hexUpperAlphabet) ∧
    tokenFree ([] : List OrderItem) c5Item.token = true :=
  create_order_returns_fresh_received_item ⟨[], [], []⟩ c5Order (fun _ => 0)
    ⟨2024, 3, 5, 10, 0⟩ 1 1 c5Item ⟨[], [⟨1, 1⟩], [c5Item]⟩ rfl

/-- Claim C6: when every candidate the retry loop checks collides with
an existing token, `create_order` raises the fatal token-exhaustion
error and the store is left unchanged (neither the Order nor the Item is
persisted); and a successful `create_order` never carries a token that
collides with a previously issued one. -/
theorem create_order_exhaustion_aborts (s : Store) (order : OrderCreate)
    (rng : Nat → Nat) (now : DateTime) (orderId itemId : Nat) :
    ((∀ j, j < 10 → tokenFree s.items (newToken (rng j)) = false) →
      createOrder s order rng now orderId itemId =
        .error "failed to generate unique token" ∧
      createOrderRun s order rng now orderId itemId = s) ∧
    (∀ item s', createOrder s order rng now orderId itemId = .ok (item, s') →
      tokenFree s.items item.token = true) := by
  constructor
  · intro hall
    have hnone : pickToken s.items rng = none :=
      pickTokenAux_none s.items rng 0 10
        (fun j _ h2 => hall j (by omega))
    have h : createOrder s order rng now orderId itemId =
        .error "failed to generate unique token" := by
      unfold createOrder
      rw [hnone]
    exact ⟨h, by simp [createOrderRun, h]⟩
  · intro item s' h
    exact (create_order_returns_fresh_received_item s order rng now
      orderId itemId item s' h).2.2.2.2.2

/-- Claim C6 witness: a store already holding token `"000000"` together
with a random source that always draws zero exhausts all ten attempts. -/
theorem create_order_exhaustion_aborts_witness :
    (createOrder c6Store c5Order (fun _ => 0) ⟨2024, 3, 6, 8, 0⟩ 2 2 =
      .error "failed to generate unique token" ∧
    createOrderRun c6Store c5Order (fun _ => 0) ⟨2024, 3, 6, 8, 0⟩ 2 2 = c6Store) ∧
    tokenFree ([] : List OrderItem) c5Item.token = true :=
  ⟨(create_order_exhaustion_aborts c6Store c5Order (fun _ => 0)
      ⟨2024, 3, 6, 8, 0⟩ 2 2).1 (by decide),
    (create_order_exhaustion_aborts ⟨[], [], []⟩ c5Order (fun _ => 0)
      ⟨2024, 3, 5, 10, 0⟩ 1 1).2 c5Item ⟨[], [⟨1, 1⟩], [c5Item]⟩ rfl⟩

/-! ### Lemmas about the aggregation layer -/

theorem length_insertDesc {α : Type} (key : α → Nat) (x : α) (l : List α) :
    (insertDesc key x l).length = l.length + 1 := by
  induction l with
  | nil => rfl
  | cons y ys ih =>
    simp only [insertDesc]
    split
    · simp
    · simp [ih]

theorem length_sortDesc {α : Type} (key : α → Nat) (l : List α) :
    (sortDesc key l).length = l.length := by
  induction l with
  | nil => rfl
  | cons x xs ih => simp [sortDesc, length_insertDesc, ih]

/-- The four states partition any row list. -/
theorem statusCount_partition (l : List OrderItem) :
    statusCount l .RECEIVED + statusCount l .WORKING + statusCount l .DONE +
      statusCount l .PICKED_UP = l.length := by
  induction l with
  | nil => rfl
  | cons x xs ih =>
    cases hx : x.status <;>
      simp only [statusCount, List.filter_cons, hx, List.length_cons] at * <;>
      simp <;> omega

/-- Dropping zero-count buckets from the sparse map does not change the
sum of the counts. -/
theorem sum_statusCounts (sts : List ItemStatus) (l : List OrderItem) :
    ((sts.filterMap (fun st =>
        if statusCount l st = 0 then none
        else some (statusStr st, statusCount l st))).map Prod.snd).sum =
      (sts.map (statusCount l)).sum := by
  induction sts with
  | nil => rfl
  | cons st sts ih =>
    by_cases h : statusCount l st = 0
    · simp [List.filterMap_cons, h, ih]
    · simp [List.filterMap_cons, h, ih]

/-! ### Claim theorem: summary consistency -/

/-- Claim C8: for every day, `admin_summary_by_date(day).total` equals
the length of `admin_list_items_by_date(day)` and equals the sum of the
values of `by_status`. -/
theorem summary_total_consistent (s : Store) (day : Date) :
    (adminSummaryByDate s day).total = (adminListItemsByDate s day).length ∧
    (adminSummaryByDate s day).total =
      ((adminSummaryByDate s day).by_status.map Prod.snd).sum := by
  constructor
  · show (dayItems s day).length = _
    simp [adminListItemsByDate, length_sortDesc]
  · show (dayItems s day).length = _
    rw [show (adminSummaryByDate s day).by_status =
      allStatuses.filterMap (fun st =>
        if statusCount (dayItems s day) st = 0 then none
        else some (statusStr st, statusCount (dayItems s day) st)) from rfl]
    rw [sum_statusCounts]
    have hp := statusCount_partition (dayItems s day)
    simp only [allStatuses, List.map_cons, List.map_nil, List.sum_cons,
      List.sum_nil]
    omega

/-! ### Lemmas about `LIKE` matching -/

theorem anySuffix_isEmpty (t : List Char) :
    anySuffix (fun s => s.isEmpty) t = true := by
  induction t with
  | nil => rfl
  | cons c t ih =>
    show ((c :: t).isEmpty || anySuffix (fun s => s.isEmpty) t) = true
    rw [ih]
    simp

/-- A wildcard-free pattern followed by `%` matches exactly the strings
it is a prefix of. -/
theorem likeMatch_append_pct (kw : List Char)
    (hw : ∀ c ∈ kw, c ≠ '%' ∧ c ≠ '_') (t : List Char) :
    likeMatch (kw ++ ['%']) t = kw.isPrefixOf t := by
  induction kw generalizing t with
  | nil =>
    simp only [List.nil_append]
    simp [likeMatch, anySuffix_isEmpty, List.isPrefixOf]
  | cons c kw ih =>
    have hc := hw c (List.mem_cons_self c kw)
    have hw2 : ∀ x ∈ kw, x ≠ '%' ∧ x ≠ '_' :=
      fun x hx => hw x (List.mem_cons_of_mem c hx)
    cases t with
    | nil => simp [likeMatch, hc.1, List.isPrefixOf]
    | cons d t =>
      have hcu : (c == '_') = false := beq_eq_false_iff_ne.mpr hc.2
      simp [likeMatch, hc.1, hcu, ih hw2 t, List.isPrefixOf]

/-- `%kw%` with a wildcard-free `kw` matches exactly the strings that
contain `kw`. -/
theorem likeMatch_pct_wrap (kw : List Char)
    (hw : ∀ c ∈ kw, c ≠ '%' ∧ c ≠ '_') (t : List Char) :
    likeMatch ('%' :: (kw ++ ['%'])) t = containsChars kw t := by
  induction t with
  | nil =>
    simp [likeMatch, anySuffix, containsChars, likeMatch_append_pct kw hw]
  | cons c t ih =>
    have ih2 : anySuffix (likeMatch (kw ++ ['%'])) t = containsChars kw t := by
      simpa [likeMatch] using ih
    simp [likeMatch, anySuffix, containsChars, likeMatch_append_pct kw hw, ih2]

/-- `containsChars` is substring containment. -/
theorem containsChars_iff_infix (n h : List Char) :
    containsChars n h = true ↔ n <:+: h := by
  induction h with
  | nil =>
    simp [containsChars, List.isPrefixOf_iff_prefix, List.infix_nil,
      List.prefix_nil]
  | cons c h ih =>
    simp [containsChars, List.isPrefixOf_iff_prefix, ih, List.infix_cons_iff]

theorem ofNat_lower_ne_wild :
    ∀ m, m < 123 → 97 ≤ m → Char.ofNat m ≠ '%' ∧ Char.ofNat m ≠ '_' := by
  decide

/-- Lower-casing never creates a `LIKE` wildcard character. -/
theorem toLower_ne_wild (c : Char) (h1 : c ≠ '%') (h2 : c ≠ '_') :
    Char.toLower c ≠ '%' ∧ Char.toLower c ≠ '_' := by
  by_cases h : c.toNat ≥ 65 ∧ c.toNat ≤ 90
  · have he : Char.toLower c = Char.ofNat (c.toNat + 32) := by
      simp [Char.toLower, h]
    rw [he]
    exact ofNat_lower_ne_wild (c.toNat + 32) (by omega) (by omega)
  · have he : Char.toLower c = c := by
      simp [Char.toLower, h]
    rw [he]
    exact ⟨h1, h2⟩

theorem lowerChars_pct_wrap (kw : String) :
    lowerChars ("%" ++ kw ++ "%") = '%' :: (lowerChars kw ++ ['%']) := by
  simp only [lowerChars, String.data_append]
  simp [show Char.toLower '%' = '%' from rfl]

/-- On a wildcard-free keyword, `ILIKE "%kw%"` is exactly the
case-insensitive substring test. -/
theorem ilike_pct_eq_containsCI (v kw : String)
    (hw : ∀ c ∈ kw.data, c ≠ '%' ∧ c ≠ '_') :
    ilike v ("%" ++ kw ++ "%") = containsCI v kw := by
  unfold ilike containsCI
  rw [lowerChars_pct_wrap]
  refine likeMatch_pct_wrap (lowerChars kw) ?_ (lowerChars v)
  intro c hc
  simp only [lowerChars, List.mem_map] at hc
  obtain ⟨x, hx, hxc⟩ := hc
  rw [← hxc]
  exact toLower_ne_wild x (hw x hx).1 (hw x hx).2

/-! ### Claim theorems: keyword search -/

/-- Claim C7 counterexample: the keyword `"%"` is non-blank, so the
claim says the search returns exactly the Items one of whose fields
contains `"%"` as a substring — none in this store.  The code instead
feeds `"%%%"` to `ILIKE`, which matches every row, so the search returns
one row while the substring contract returns none. -/
theorem admin_search_wildcard_breaks_substring :
    adminSearch c7Store "%" ≠ searchSpec c7Store "%" ∧
    (adminSearch c7Store "%").length = 1 ∧
    searchSpec c7Store "%" = [] ∧
    containsCI "ABCDEF" "%" = false ∧
    containsCI "Bob" "%" = false ∧
    containsCI "0911222333" "%" = false := by
  exact ⟨by decide, rfl, rfl, rfl, rfl, rfl⟩

/-- Claim C7 (amended): `search` returns `[]` for every blank keyword,
and for every keyword free of the SQL `LIKE` wildcard characters `%` and
`_` it returns exactly the rows whose token, customer name or customer
phone contains the (stripped) keyword as a case-insensitive substring,
ordered by id descending and capped at 200 rows. -/
theorem admin_search_blank_and_substring (s : Store) (q : String) :
    (pyStrip q = "" → adminSearch s q = []) ∧
    ((∀ c ∈ (pyStrip q).data, c ≠ '%' ∧ c ≠ '_') →
      adminSearch s q = searchSpec s q) := by
  constructor
  · intro h
    simp [adminSearch, h]
  · intro hw
    by_cases hkw : pyStrip q = ""
    · simp [adminSearch, searchSpec, hkw]
    · have hfil : ∀ r ∈ joinRows s,
          (ilike r.1.token ("%" ++ pyStrip q ++ "%") ||
           ilike r.2.name ("%" ++ pyStrip q ++ "%") ||
           ilike r.2.phone ("%" ++ pyStrip q ++ "%")) =
          (containsCI r.1.token (pyStrip q) ||
           containsCI r.2.name (pyStrip q) ||
           containsCI r.2.phone (pyStrip q)) := by
        intro r hr
        rw [ilike_pct_eq_containsCI r.1.token (pyStrip q) hw,
          ilike_pct_eq_containsCI r.2.name (pyStrip q) hw,
          ilike_pct_eq_containsCI r.2.phone (pyStrip q) hw]
      simp only [adminSearch, searchSpec]
      rw [if_neg hkw, if_neg hkw]
      rw [List.filter_congr hfil]

/-- Claim C7 witness. -/
theorem admin_search_blank_and_substring_witness :
    adminSearch c7Store "" = [] ∧
    adminSearch c7Store " " = [] ∧
    adminSearch c7Store "bob" = searchSpec c7Store "bob" :=
  ⟨(admin_search_blank_and_substring c7Store "").1 (by decide),
   (admin_search_blank_and_substring c7Store " ").1 (by decide),
   (admin_search_blank_and_substring c7Store "bob").2 (by decide)⟩

/-! ### Claim theorem: month rollup -/

/-- Claim C9 (spec-modelled): `month_unfinished_counts` maps every day
of the given calendar month with a nonzero count of unfinished Items
(status not `DONE` and not `PICKED_UP`, promised that day) to that
count, keyed by ISO date string; entries exist only for days of the
month and only with nonzero counts. -/
theorem month_unfinished_counts_characterized (s : Store) (y m d : Nat)
    (h1 : 1 ≤ d) (h2 : d ≤ daysInMonth y m) :
    (0 < countUnfinishedOn s y m d →
      (isoDate y m d, countUnfinishedOn s y m d) ∈ monthUnfinishedCounts s y m) ∧
    (∀ p ∈ monthUnfinishedCounts s y m, 0 < p.2 ∧
      ∃ d2, 1 ≤ d2 ∧ d2 ≤ daysInMonth y m ∧ p.1 = isoDate y m d2 ∧
        p.2 = countUnfinishedOn s y m d2) := by
  constructor
  · intro hpos
    refine List.mem_filterMap.mpr ⟨d - 1, List.mem_range.mpr (by omega), ?_⟩
    have hd : d - 1 + 1 = d := by omega
    rw [hd, if_neg (by omega)]
  · intro p hp
    obtain ⟨i, hi, hf⟩ := List.mem_filterMap.mp hp
    have hir := List.mem_range.mp hi
    by_cases hz : countUnfinishedOn s y m (i + 1) = 0
    · rw [if_pos hz] at hf
      exact absurd hf (by simp)
    · rw [if_neg hz] at hf
      injection hf with hf
      rw [← hf]
      exact ⟨by omega, i + 1, by omega, by omega, rfl, rfl⟩

/-- Claim C9 witness. -/
theorem month_unfinished_counts_characterized_witness :
    (0 < countUnfinishedOn c9Store 2024 3 5 →
      (isoDate 2024 3 5, countUnfinishedOn c9Store 2024 3 5) ∈
        monthUnfinishedCounts c9Store 2024 3) ∧
    (∀ p ∈ monthUnfinishedCounts c9Store 2024 3, 0 < p.2 ∧
      ∃ d2, 1 ≤ d2 ∧ d2 ≤ daysInMonth 2024 3 ∧ p.1 = isoDate 2024 3 d2 ∧
        p.2 = countUnfinishedOn c9Store 2024 3 d2) :=
  month_unfinished_counts_characterized c9Store 2024 3 5 (by decide) (by decide)

end Stringing
